import Mathlib

/-!
Verification of the EHR Insurance Verification server (src/server.js).

The JavaScript source is shallowly embedded: every handler becomes a pure
Lean function, with the remote FHIR gateway modelled as an explicit input
(a `FetchResult` oracle standing for the outcome of the `axios.get` call),
`Math.random() > 0.2` modelled as an explicit `Bool` argument, and
`new Date().toISOString()` modelled as an explicit `String` argument.
JavaScript objects whose keys vary between code paths are modelled as
structures with `Option` fields (`none` = key absent / value `undefined`)
or as sum types where the shapes are disjoint.
-/

namespace EHR

/-- One FHIR `identifier` element: only the `value` field is read by the
server (`identifier?.[0]?.value`). -/
structure Identifier where
  value : Option String
deriving Repr, DecidableEq

/-- One element of a Coverage resource's `payor` list; the server reads
`payor?.[0]?.identifier?.[0]?.value`. -/
structure PayorRef where
  identifier : Option (List Identifier)
deriving Repr, DecidableEq

/-- A FHIR `period` value; copied verbatim by `extractCoverageInfo`, never
inspected field-by-field by the server. -/
structure Period where
  start : Option String
  stop : Option String
deriving Repr, DecidableEq

/-- A FHIR `address` entry; `extractPatientInfo` passes `address?.[0]`
through verbatim, never inspecting its fields. -/
structure Address where
  line : List String
  city : Option String
  state : Option String
  postalCode : Option String
deriving Repr, DecidableEq

/-- A FHIR `name` entry: `extractPatientInfo` reads `given?.[0]` and
`family`. -/
structure HumanName where
  given : Option (List String)
  family : Option String
deriving Repr, DecidableEq

/-- A FHIR `telecom` entry: `extractPatientInfo` selects the first whose
`system === 'phone'` and reads its `value`. -/
structure ContactPoint where
  system : Option String
  value : Option String
deriving Repr, DecidableEq

/-- A raw FHIR Patient resource, restricted to the fields the server
reads: `id`, `name`, `birthDate`, `gender`, `telecom`, `address`.
`Option`/empty-list values model absent keys. -/
structure Patient where
  id : Option String
  name : Option (List HumanName)
  birthDate : Option String
  gender : Option String
  telecom : Option (List ContactPoint)
  address : Option (List Address)
deriving Repr, DecidableEq

/-- The normalized patient record produced by
`FHIRHelper.extractPatientInfo`. -/
structure PatientInfo where
  id : Option String
  firstName : String
  lastName : String
  birthDate : Option String
  gender : Option String
  phone : Option String
  address : Option Address
deriving Repr, DecidableEq

/-- `FHIRHelper.extractPatientInfo(patient)`:
`name = patient.name?.[0]`, `firstName = name?.given?.[0] || ''`,
`lastName = name?.family || ''`,
`phone = patient.telecom?.find(t => t.system === 'phone')?.value`,
`address = patient.address?.[0]`. -/
def extractPatientInfo (patient : Patient) : PatientInfo :=
  let name := patient.name.bind List.head?
  { id := patient.id
    firstName := ((name.bind (fun n => n.given.bind List.head?)).getD "")
    lastName := ((name.bind (fun n => n.family)).getD "")
    birthDate := patient.birthDate
    gender := patient.gender
    phone := ((patient.telecom.bind
        (List.find? (fun t => t.system == some "phone"))).bind
        (fun t => t.value))
    address := patient.address.bind List.head? }

/-- The `resource` of a Coverage bundle entry, restricted to the five
fields `extractCoverageInfo` copies. -/
structure CoverageResource where
  id : Option String
  status : Option String
  subscriberId : Option String
  payor : Option (List PayorRef)
  period : Option Period
deriving Repr, DecidableEq

/-- One `entry` of a FHIR search bundle for Coverage. -/
structure BundleEntry where
  resource : CoverageResource
deriving Repr, DecidableEq

/-- A FHIR Coverage search bundle: the server only reads `entry`
(`!coverage.entry || coverage.entry.length === 0`). -/
structure Bundle where
  entry : Option (List BundleEntry)
deriving Repr, DecidableEq

/-- The normalized coverage record produced by
`FHIRHelper.extractCoverageInfo`: the five fields of `entry[0].resource`,
copied verbatim. -/
structure CoverageInfo where
  id : Option String
  status : Option String
  subscriberId : Option String
  payor : Option (List PayorRef)
  period : Option Period
deriving Repr, DecidableEq

/-- `FHIRHelper.extractCoverageInfo(coverage)`: returns `null` when
`coverage.entry` is absent or empty; otherwise copies
`id/status/subscriberId/payor/period` from `coverage.entry[0].resource`. -/
def extractCoverageInfo (coverage : Bundle) : Option CoverageInfo :=
  match coverage.entry with
  | none => none
  | some [] => none
  | some (e :: _) =>
      some { id := e.resource.id
             status := e.resource.status
             subscriberId := e.resource.subscriberId
             payor := e.resource.payor
             period := e.resource.period }

/-- An entry of `mockPayers` in `InsuranceVerificationService`. -/
structure PayerRecord where
  name : String
  active : Bool
  verificationEndpoint : String
deriving Repr, DecidableEq

/-- The `mockPayers` table: three seed entries keyed by payer identifier. -/
def mockPayers : String → Option PayerRecord
  | "BCBS001" => some { name := "Blue Cross Blue Shield", active := true
                        verificationEndpoint := "mock" }
  | "AETNA001" => some { name := "Aetna", active := true
                         verificationEndpoint := "mock" }
  | "UHC001" => some { name := "United Healthcare", active := true
                       verificationEndpoint := "mock" }
  | _ => none

/-- One benefit line item of an eligibility report. -/
structure Benefit where
  service : String
  coverage : String
  copay : String
deriving Repr, DecidableEq

/-- The object returned by `verifyEligibility`. The unknown-payer branch
returns only `status`/`message`/`eligible`; the success branch returns
`status`/`eligible`/`payerName`/dates/amounts/`benefits`/
`verificationDate` and no `message`. `none` models an absent key. -/
structure EligibilityResult where
  status : String
  message : Option String
  eligible : Bool
  payerName : Option String
  effectiveDate : Option String
  terminationDate : Option String
  copay : Option String
  deductible : Option String
  deductibleMet : Option String
  benefits : Option (List Benefit)
  verificationDate : Option String
deriving Repr, DecidableEq

/-- The payer-identifier path `coverageData.payor?.[0]?.identifier?.[0]?.value`:
any missing segment yields `none`. -/
def payerIdOf (coverageData : CoverageInfo) : Option String :=
  ((coverageData.payor.bind List.head?).bind
      (fun p => p.identifier.bind List.head?)).bind
    (fun i => i.value)

/-- The two fixed benefit line items of the success branch. -/
def mockBenefits : List Benefit :=
  [ { service := "Office Visit", coverage := "Covered", copay := "$25.00" },
    { service := "Preventive Care", coverage := "Covered 100%"
      copay := "$0.00" } ]

/-- `InsuranceVerificationService.verifyEligibility(patientData, coverageData)`.
`rand` stands for the value of `Math.random() > 0.2`; `now` stands for
`new Date().toISOString()`. The artificial 1s delay has no observable
effect on the returned value and is elided. -/
def verifyEligibility (rand : Bool) (now : String)
    (patientData : PatientInfo) (coverageData : CoverageInfo) :
    EligibilityResult :=
  let payerId := payerIdOf coverageData
  match payerId.bind mockPayers with
  | none =>
      { status := "error", message := some "Payer not recognized"
        eligible := false, payerName := none, effectiveDate := none
        terminationDate := none, copay := none, deductible := none
        deductibleMet := none, benefits := none, verificationDate := none }
  | some payer =>
      { status := "success", message := none, eligible := rand
        payerName := some payer.name, effectiveDate := some "2024-01-01"
        terminationDate := some "2024-12-31", copay := some "$25.00"
        deductible := some "$1,500.00", deductibleMet := some "$450.00"
        benefits := some mockBenefits, verificationDate := some now }

/-- The outcome of one upstream `axios.get` call: a successful response
body, an HTTP error carrying `error.response.status`, or a failure with no
HTTP response (network failure, malformed response), carrying
`error.message`. -/
inductive FetchResult (α : Type) where
  | ok (data : α)
  | httpError (status : Nat) (msg : String)
  | netError (msg : String)
deriving Repr, DecidableEq

/-- A fetch outcome that is a failure (anything but `ok`). -/
def FetchResult.isFailure {α : Type} : FetchResult α → Bool
  | .ok _ => false
  | .httpError _ _ => true
  | .netError _ => true

/-- The not-found message thrown by `getPatient` on upstream 404:
`Patient with ID '<id>' not found. Try searching for patients first.` -/
def notFoundMsg (patientId : String) : String :=
  "Patient with ID \x27" ++ patientId ++
    "\x27 not found. Try searching for patients first."

/-- `FHIRHelper.getPatient(patientId)`, with the upstream outcome made
explicit. On upstream 404 it throws the descriptive not-found message; on
any other failure it throws `Failed to fetch patient data`. -/
def getPatient (patientId : String) (upstream : FetchResult Patient) :
    Except String Patient :=
  match upstream with
  | .ok p => .ok p
  | .httpError s _ =>
      if s = 404 then .error (notFoundMsg patientId)
      else .error "Failed to fetch patient data"
  | .netError _ => .error "Failed to fetch patient data"

/-- `FHIRHelper.getCoverage(patientId)`, with the upstream outcome made
explicit: on any failure it swallows the error and returns `{entry: []}`. -/
def getCoverage (upstream : FetchResult Bundle) : Bundle :=
  match upstream with
  | .ok b => b
  | .httpError _ _ => { entry := some [] }
  | .netError _ => { entry := some [] }

/-- The `verification` value of a single- or batch-verification response:
either the plain `{status, message?}` no-coverage object or a full
eligibility report. The two are distinct JavaScript object shapes. -/
inductive Verification where
  | simple (status : String) (message : Option String)
  | report (r : EligibilityResult)
deriving Repr, DecidableEq

/-- The JSON body of a `POST /api/verify-insurance` response; `none`
models a key the handler does not include in that branch. -/
structure VerifyBody where
  success : Bool
  error : Option String
  patient : Option PatientInfo
  coverage : Option CoverageInfo
  verification : Option Verification
deriving Repr, DecidableEq

/-- An HTTP response of the verify-insurance endpoint: status code and
JSON body. -/
structure VerifyResponse where
  status : Nat
  body : VerifyBody
deriving Repr, DecidableEq

/-- JavaScript truthiness test `!patientId` for the request-body field
(`undefined` or the empty string are falsy). -/
def falsyId : Option String → Bool
  | none => true
  | some s => s.isEmpty

/-- The `POST /api/verify-insurance` handler. Inputs: the request body's
`patientId`, the upstream outcomes of the patient and coverage fetches,
and the `rand`/`now` parameters of the eligibility stub. Returns the
response together with the number of times `verifyEligibility` was
invoked. -/
def verifyInsuranceRoute (patientId : Option String)
    (pu : FetchResult Patient) (cu : FetchResult Bundle)
    (rand : Bool) (now : String) : VerifyResponse × Nat :=
  if falsyId patientId then
    (⟨400, { success := false, error := some "Patient ID is required"
             patient := none, coverage := none, verification := none }⟩, 0)
  else
    match getPatient (patientId.getD "") pu with
    | .error msg =>
        (⟨500, { success := false, error := some msg, patient := none
                 coverage := none, verification := none }⟩, 0)
    | .ok patient =>
        let coverage := getCoverage cu
        let patientInfo := extractPatientInfo patient
        match extractCoverageInfo coverage with
        | none =>
            (⟨200, { success := true, error := none
                     patient := some patientInfo, coverage := none
                     verification := some (.simple "no_coverage"
                       (some "No insurance coverage found for patient")) }⟩,
             0)
        | some coverageInfo =>
            let verification :=
              verifyEligibility rand now patientInfo coverageInfo
            (⟨200, { success := true, error := none
                     patient := some patientInfo
                     coverage := some coverageInfo
                     verification := some (.report verification) }⟩, 1)

/-- The JSON body of a `GET /api/patient/:id` response. -/
structure PatientRouteBody where
  success : Bool
  patient : Option PatientInfo
  error : Option String
deriving Repr, DecidableEq

/-- The `GET /api/patient/:id` handler: 200 with the normalized record on
success; its catch block answers 404 with `error.message` on ANY failure
of `getPatient`. -/
def getPatientRoute (patientId : String) (pu : FetchResult Patient) :
    Nat × PatientRouteBody :=
  match getPatient patientId pu with
  | .ok p => (200, { success := true
                     patient := some (extractPatientInfo p), error := none })
  | .error msg => (404, { success := false, patient := none
                          error := some msg })

/-- The JSON body of a `GET /api/coverage/:patientId` response. -/
structure CoverageRouteBody where
  success : Bool
  coverage : Option CoverageInfo
deriving Repr, DecidableEq

/-- The `GET /api/coverage/:patientId` handler: `getCoverage` never
throws, so the handler always answers 200 with the normalized record or
`null`. -/
def getCoverageRoute (cu : FetchResult Bundle) : Nat × CoverageRouteBody :=
  (200, { success := true
          coverage := extractCoverageInfo (getCoverage cu) })

/-- One entry of the batch-verification `results` list: the success shape
`{patientId, patient, coverage, verification}` or the failure shape
`{patientId, error}`; the shapes are disjoint. In the success shape
`coverage` is the (possibly `null`) normalized record — the key is always
present. -/
inductive BatchEntry where
  | ok (patientId : String) (patient : PatientInfo)
      (coverage : Option CoverageInfo) (verification : Verification)
  | err (patientId : String) (error : String)
deriving Repr, DecidableEq

/-- The per-identifier environment of one batch iteration: the upstream
outcomes of its two fetches and its eligibility-stub coin flip. -/
structure ItemEnv where
  patientFetch : FetchResult Patient
  coverageFetch : FetchResult Bundle
  rand : Bool
deriving Repr, DecidableEq

/-- One iteration of the `/api/verify-batch` loop body for `patientId`,
returning the entry pushed onto `results` and the number of
`verifyEligibility` invocations. The inner catch turns any failure into
`{patientId, error}`; when coverage is `null` the stub is skipped and
`verification` falls back to `{status: 'no_coverage'}`. -/
def verifyBatchItem (patientId : String) (env : ItemEnv) (now : String) :
    BatchEntry × Nat :=
  match getPatient patientId env.patientFetch with
  | .error msg => (.err patientId msg, 0)
  | .ok patient =>
      let coverage := getCoverage env.coverageFetch
      let patientInfo := extractPatientInfo patient
      match extractCoverageInfo coverage with
      | none =>
          (.ok patientId patientInfo none (.simple "no_coverage" none), 0)
      | some coverageInfo =>
          (.ok patientId patientInfo (some coverageInfo)
             (.report (verifyEligibility env.rand now patientInfo
               coverageInfo)), 1)

/-- The `results` list built by the `/api/verify-batch` loop over the
identifiers, each paired with its per-item environment. -/
def verifyBatchResults (items : List (String × ItemEnv)) (now : String) :
    List BatchEntry :=
  items.map (fun it => (verifyBatchItem it.1 it.2 now).1)

/-- The response of `POST /api/verify-batch`: 400 when `patientIds` is
not a non-empty array, else 200 with the `results` list. -/
inductive BatchResponse where
  | badRequest
  | okResults (results : List BatchEntry)
deriving Repr, DecidableEq

/-- The `POST /api/verify-batch` handler over an already-decoded request:
`none` models a `patientIds` that is not an array. -/
def verifyBatchRoute (items : Option (List (String × ItemEnv)))
    (now : String) : BatchResponse :=
  match items with
  | none => .badRequest
  | some [] => .badRequest
  | some l => .okResults (verifyBatchResults l now)

/-- Spec-side description of the telecom selection: the first entry whose
`system` equals `phone`. -/
def firstPhone : List ContactPoint → Option ContactPoint
  | [] => none
  | t :: ts => if t.system = some "phone" then some t else firstPhone ts

lemma find_phone_eq_firstPhone (l : List ContactPoint) :
    List.find? (fun t => t.system == some "phone") l = firstPhone l := by
  induction l with
  | nil => rfl
  | cons t ts ih =>
      by_cases h : t.system = some "phone"
      · simp [List.find?, firstPhone, h]
      · have hb : (t.system == some "phone") = false :=
          beq_eq_false_iff_ne.mpr h
        simp [List.find?, firstPhone, h, hb, ih]

/-- A patient resource with every optional field present. -/
def samplePatient : Patient :=
  { id := some "p1"
    name := some [{ given := some ["John"], family := some "Doe" }]
    birthDate := some "1990-01-01", gender := some "male"
    telecom := some [{ system := some "phone", value := some "555-1234" }]
    address := none }

/-- A patient resource with every optional field absent. -/
def barePatient : Patient :=
  { id := none, name := none, birthDate := none, gender := none
    telecom := none, address := none }

/-- A coverage resource whose payer identifier is the known key
`BCBS001`. -/
def sampleCoverage : CoverageResource :=
  { id := some "c1", status := some "active", subscriberId := some "12345"
    payor := some [{ identifier := some [{ value := some "BCBS001" }] }]
    period := none }

/-- A one-entry coverage search bundle. -/
def sampleBundle : Bundle := { entry := some [{ resource := sampleCoverage }] }

/-- The empty coverage search bundle `{entry: []}`. -/
def emptyBundle : Bundle := { entry := some [] }

/-- A second coverage resource, used as an ignored later bundle entry. -/
def noPayorCoverageResource : CoverageResource :=
  { id := some "c3", status := some "cancelled", subscriberId := none
    payor := none, period := none }

/-- A normalized coverage record with no payor list. -/
def noPayorCoverage : CoverageInfo :=
  { id := some "c2", status := some "active", subscriberId := none
    payor := none, period := none }

/-- A two-item batch where the first item's patient fetch fails and the
second succeeds with coverage. -/
def sampleItems : List (String × ItemEnv) :=
  [ ("A", { patientFetch := .netError "socket hang up"
            coverageFetch := .ok emptyBundle, rand := true }),
    ("B", { patientFetch := .ok samplePatient
            coverageFetch := .ok sampleBundle, rand := true }) ]

/-- C1, counterexample. The claim says `POST /api/verify-insurance` with a
patientId whose patient fetch reports upstream HTTP 404 responds with
HTTP status 404; at patientId `missing-id` the handler's catch-all
responds 500, not 404, so the claim as stated is false. -/
theorem c1_counterexample :
    (verifyInsuranceRoute (some "missing-id")
        (.httpError 404 "Not Found") (.ok emptyBundle) true
        "2024-06-01T00:00:00Z").1.status = 500 ∧
    (verifyInsuranceRoute (some "missing-id")
        (.httpError 404 "Not Found") (.ok emptyBundle) true
        "2024-06-01T00:00:00Z").1.status ≠ 404 := by
  constructor
  · rfl
  · decide

/-- C1, amended. For every patient identifier whose patient fetch reports
upstream HTTP 404, `POST /api/verify-insurance` with that patientId
responds with HTTP status 500 (the handler's single catch block) and a
body with success false and an error message that includes the
identifier. -/
theorem c1_amended (pid msg now : String) (cu : FetchResult Bundle)
    (rand : Bool) (h : pid.isEmpty = false) :
    (verifyInsuranceRoute (some pid) (.httpError 404 msg) cu rand
        now).1.status = 500 ∧
    (verifyInsuranceRoute (some pid) (.httpError 404 msg) cu rand
        now).1.body.success = false ∧
    (verifyInsuranceRoute (some pid) (.httpError 404 msg) cu rand
        now).1.body.error = some (notFoundMsg pid) ∧
    ∃ a b, notFoundMsg pid = a ++ pid ++ b := by
  refine ⟨?_, ?_, ?_,
    ⟨"Patient with ID \x27",
     "\x27 not found. Try searching for patients first.", rfl⟩⟩ <;>
  simp [verifyInsuranceRoute, falsyId, h, getPatient]

/-- C1, witness for the amended theorem at patientId `missing-id`. -/
theorem c1_witness :
    ("missing-id".isEmpty = false) ∧
    ((verifyInsuranceRoute (some "missing-id") (.httpError 404 "Not Found")
        (.ok emptyBundle) true "2024-06-01T00:00:00Z").1.status = 500 ∧
     (verifyInsuranceRoute (some "missing-id") (.httpError 404 "Not Found")
        (.ok emptyBundle) true "2024-06-01T00:00:00Z").1.body.success
        = false ∧
     (verifyInsuranceRoute (some "missing-id") (.httpError 404 "Not Found")
        (.ok emptyBundle) true "2024-06-01T00:00:00Z").1.body.error
        = some (notFoundMsg "missing-id") ∧
     ∃ a b, notFoundMsg "missing-id" = a ++ "missing-id" ++ b) :=
  ⟨by decide,
   c1_amended "missing-id" "Not Found" "2024-06-01T00:00:00Z"
     (.ok emptyBundle) true (by decide)⟩

/-- C2, counterexample. The claim says `GET /api/patient/:id` returns 404
only on not-found; at a network failure (no upstream HTTP 404) the
route's catch still answers 404, so the claim as stated is false. -/
theorem c2_counterexample :
    (getPatientRoute "p1" (FetchResult.netError "socket hang up")).1
      = 404 ∧
    getPatient "p1" (FetchResult.netError "socket hang up")
      = .error "Failed to fetch patient data" := by
  constructor
  · rfl
  · rfl

/-- C2, amended. For every patient-fetch failure other than an upstream
HTTP 404, `getPatient` fails with the message
`Failed to fetch patient data`; `POST /api/verify-insurance` surfaces it
as status 500 with that message; but `GET /api/patient/:id` answers 404
for these failures as well (its catch block is unconditional), not only
on not-found. -/
theorem c2_amended (pid now : String) (pu : FetchResult Patient)
    (cu : FetchResult Bundle) (rand : Bool)
    (hfail : pu.isFailure = true)
    (h404 : ∀ m, pu ≠ .httpError 404 m)
    (hpid : pid.isEmpty = false) :
    getPatient pid pu = .error "Failed to fetch patient data" ∧
    (verifyInsuranceRoute (some pid) pu cu rand now).1.status = 500 ∧
    (verifyInsuranceRoute (some pid) pu cu rand now).1.body.error
      = some "Failed to fetch patient data" ∧
    (getPatientRoute pid pu).1 = 404 ∧
    (getPatientRoute pid pu).2.error
      = some "Failed to fetch patient data" := by
  have hg : getPatient pid pu = .error "Failed to fetch patient data" := by
    cases pu with
    | ok p => simp [FetchResult.isFailure] at hfail
    | httpError s m =>
        have hs : s ≠ 404 := by
          intro hs
          exact h404 m (by rw [hs])
        simp [getPatient, hs]
    | netError m => rfl
  refine ⟨hg, ?_, ?_, ?_, ?_⟩ <;>
  simp [verifyInsuranceRoute, getPatientRoute, falsyId, hpid, hg]

/-- C2, witness for the amended theorem at a network failure. -/
theorem c2_witness :
    ((FetchResult.netError "socket hang up" : FetchResult Patient).isFailure
       = true) ∧
    ("p1".isEmpty = false) ∧
    (getPatient "p1" (FetchResult.netError "socket hang up")
       = .error "Failed to fetch patient data" ∧
     (verifyInsuranceRoute (some "p1")
        (FetchResult.netError "socket hang up") (.ok emptyBundle) true
        "2024-06-01T00:00:00Z").1.status = 500 ∧
     (verifyInsuranceRoute (some "p1")
        (FetchResult.netError "socket hang up") (.ok emptyBundle) true
        "2024-06-01T00:00:00Z").1.body.error
        = some "Failed to fetch patient data" ∧
     (getPatientRoute "p1" (FetchResult.netError "socket hang up")).1
        = 404 ∧
     (getPatientRoute "p1" (FetchResult.netError "socket hang up")).2.error
        = some "Failed to fetch patient data") :=
  ⟨by decide, by decide,
   c2_amended "p1" "2024-06-01T00:00:00Z"
     (FetchResult.netError "socket hang up") (.ok emptyBundle) true
     (by decide) (fun m h => FetchResult.noConfusion h) (by decide)⟩

/-- C3. For every single verification in which the patient fetch succeeds
and the normalized coverage is null, the response is 200 with the patient
record and verification `{status: no_coverage, message: No insurance
coverage found for patient}`, and `verifyEligibility` is invoked zero
times on that request. -/
theorem c3_no_coverage_short_circuit (pid now : String) (p : Patient)
    (cu : FetchResult Bundle) (rand : Bool)
    (hpid : pid.isEmpty = false)
    (hcov : extractCoverageInfo (getCoverage cu) = none) :
    verifyInsuranceRoute (some pid) (.ok p) cu rand now =
      (⟨200, { success := true, error := none
               patient := some (extractPatientInfo p), coverage := none
               verification := some (.simple "no_coverage"
                 (some "No insurance coverage found for patient")) }⟩,
       0) := by
  simp [verifyInsuranceRoute, falsyId, hpid, getPatient, hcov]

/-- C3, witness: patient fetch succeeds, the coverage bundle is empty. -/
theorem c3_witness :
    ("p1".isEmpty = false) ∧
    (extractCoverageInfo (getCoverage (.ok emptyBundle)) = none) ∧
    verifyInsuranceRoute (some "p1") (.ok samplePatient) (.ok emptyBundle)
        true "2024-06-01T00:00:00Z" =
      (⟨200, { success := true, error := none
               patient := some (extractPatientInfo samplePatient)
               coverage := none
               verification := some (.simple "no_coverage"
                 (some "No insurance coverage found for patient")) }⟩,
       0) :=
  ⟨by decide, by decide,
   c3_no_coverage_short_circuit "p1" "2024-06-01T00:00:00Z" samplePatient
     (.ok emptyBundle) true (by decide) (by decide)⟩

/-- C4. For every non-empty batch, the route answers with the results
list; that list has the same length as the input, its i-th entry is
exactly the entry computed from the i-th identifier and its own
environment (so one identifier's failure cannot change any other
identifier's entry or its position), and every entry is one of the two
mutually exclusive shapes `ok` (identifier, patient, coverage,
verification) or `err` (identifier, error). -/
theorem c4_batch_isolation (items : List (String × ItemEnv)) (now : String)
    (h : items ≠ []) :
    verifyBatchRoute (some items) now
      = .okResults (verifyBatchResults items now) ∧
    (verifyBatchResults items now).length = items.length ∧
    (∀ i (hi : i < items.length)
         (hi2 : i < (verifyBatchResults items now).length),
        (verifyBatchResults items now).get ⟨i, hi2⟩ =
          (verifyBatchItem (items.get ⟨i, hi⟩).1 (items.get ⟨i, hi⟩).2
            now).1) ∧
    (∀ e ∈ verifyBatchResults items now,
        (∃ pid pinfo cov v, e = .ok pid pinfo cov v) ∨
        (∃ pid m, e = .err pid m)) ∧
    (∀ pid pinfo cov v pid2 m,
        BatchEntry.ok pid pinfo cov v ≠ BatchEntry.err pid2 m) := by
  refine ⟨?_, ?_, ?_, ?_, ?_⟩
  · cases items with
    | nil => exact absurd rfl h
    | cons a l => rfl
  · simp [verifyBatchResults]
  · intro i hi hi2
    simp [verifyBatchResults]
  · intro e he
    cases e with
    | ok pid pinfo cov v => exact Or.inl ⟨pid, pinfo, cov, v, rfl⟩
    | err pid m => exact Or.inr ⟨pid, m, rfl⟩
  · intro pid pinfo cov v pid2 m hEq
    exact BatchEntry.noConfusion hEq

/-- C4, witness: a two-item batch whose first item fails and second
succeeds. -/
theorem c4_witness :
    (sampleItems ≠ []) ∧
    (verifyBatchRoute (some sampleItems) "2024-06-01T00:00:00Z"
      = .okResults (verifyBatchResults sampleItems "2024-06-01T00:00:00Z") ∧
    (verifyBatchResults sampleItems "2024-06-01T00:00:00Z").length
      = sampleItems.length ∧
    (∀ i (hi : i < sampleItems.length)
         (hi2 : i < (verifyBatchResults sampleItems
                      "2024-06-01T00:00:00Z").length),
        (verifyBatchResults sampleItems "2024-06-01T00:00:00Z").get
            ⟨i, hi2⟩ =
          (verifyBatchItem (sampleItems.get ⟨i, hi⟩).1
            (sampleItems.get ⟨i, hi⟩).2 "2024-06-01T00:00:00Z").1) ∧
    (∀ e ∈ verifyBatchResults sampleItems "2024-06-01T00:00:00Z",
        (∃ pid pinfo cov v, e = .ok pid pinfo cov v) ∨
        (∃ pid m, e = .err pid m)) ∧
    (∀ pid pinfo cov v pid2 m,
        BatchEntry.ok pid pinfo cov v ≠ BatchEntry.err pid2 m)) :=
  ⟨by decide, c4_batch_isolation sampleItems "2024-06-01T00:00:00Z"
    (by decide)⟩

/-- C5. For every coverage-fetch failure, `getCoverage` returns the empty
bundle `{entry: []}` instead of propagating the error, so normalization
yields null (`no coverage found`); and `GET /api/coverage/:patientId`
answers 200 — never 404 — on every upstream outcome. -/
theorem c5_coverage_soft_fail (cu : FetchResult Bundle)
    (h : cu.isFailure = true) :
    getCoverage cu = { entry := some [] } ∧
    extractCoverageInfo (getCoverage cu) = none ∧
    (∀ cu2 : FetchResult Bundle, (getCoverageRoute cu2).1 = 200) ∧
    (∀ cu2 : FetchResult Bundle, (getCoverageRoute cu2).1 ≠ 404) := by
  have hg : getCoverage cu = { entry := some [] } := by
    cases cu with
    | ok b => simp [FetchResult.isFailure] at h
    | httpError s m => rfl
    | netError m => rfl
  exact ⟨hg, by simp [hg, extractCoverageInfo],
    fun cu2 => rfl, fun cu2 => by simp [getCoverageRoute]⟩

/-- C5, witness at an upstream HTTP 500 failure. -/
theorem c5_witness :
    ((FetchResult.httpError 500 "boom" : FetchResult Bundle).isFailure
       = true) ∧
    (getCoverage (.httpError 500 "boom") = { entry := some [] } ∧
     extractCoverageInfo (getCoverage (.httpError 500 "boom")) = none ∧
     (∀ cu2 : FetchResult Bundle, (getCoverageRoute cu2).1 = 200) ∧
     (∀ cu2 : FetchResult Bundle, (getCoverageRoute cu2).1 ≠ 404)) :=
  ⟨by decide, c5_coverage_soft_fail (.httpError 500 "boom") (by decide)⟩

/-- C6. For every (patient, coverage) pair whose payer identifier at path
`coverage.payor[0].identifier[0].value` is absent or not a key of the
payer table, `verifyEligibility` returns exactly
`{status: error, message: Payer not recognized, eligible: false}` with
every other field absent. -/
theorem c6_unknown_payer (rand : Bool) (now : String) (pd : PatientInfo)
    (cd : CoverageInfo)
    (h : payerIdOf cd = none ∨
         ∃ k, payerIdOf cd = some k ∧ mockPayers k = none) :
    verifyEligibility rand now pd cd =
      { status := "error", message := some "Payer not recognized"
        eligible := false, payerName := none, effectiveDate := none
        terminationDate := none, copay := none, deductible := none
        deductibleMet := none, benefits := none
        verificationDate := none } := by
  have hb : (payerIdOf cd).bind mockPayers = none := by
    rcases h with h | ⟨k, hk, hm⟩
    · simp [h]
    · simp [hk, hm]
  simp [verifyEligibility, hb]

/-- C6, witness at a coverage record with no payor list. -/
theorem c6_witness :
    (payerIdOf noPayorCoverage = none ∨
     ∃ k, payerIdOf noPayorCoverage = some k ∧ mockPayers k = none) ∧
    verifyEligibility true "2024-06-01T00:00:00Z"
        (extractPatientInfo barePatient) noPayorCoverage =
      { status := "error", message := some "Payer not recognized"
        eligible := false, payerName := none, effectiveDate := none
        terminationDate := none, copay := none, deductible := none
        deductibleMet := none, benefits := none
        verificationDate := none } :=
  ⟨Or.inl (by decide),
   c6_unknown_payer true "2024-06-01T00:00:00Z"
     (extractPatientInfo barePatient) noPayorCoverage
     (Or.inl (by decide))⟩

/-- C7. For every coverage record whose payer identifier is a key of the
table, `verifyEligibility` reports status `success`, payerName equal to
the table's display name for that key, and a benefits list of exactly the
2 fixed entries (Office Visit, Preventive Care), regardless of the random
eligible boolean; and the table maps its three keys to their display
names. -/
theorem c7_known_payer (rand : Bool) (now : String) (pd : PatientInfo)
    (cd : CoverageInfo) (k : String) (payer : PayerRecord)
    (hk : payerIdOf cd = some k) (hp : mockPayers k = some payer) :
    (verifyEligibility rand now pd cd).status = "success" ∧
    (verifyEligibility rand now pd cd).payerName = some payer.name ∧
    (verifyEligibility rand now pd cd).benefits = some mockBenefits ∧
    mockBenefits.length = 2 ∧
    mockBenefits =
      [ { service := "Office Visit", coverage := "Covered"
          copay := "$25.00" },
        { service := "Preventive Care", coverage := "Covered 100%"
          copay := "$0.00" } ] ∧
    mockPayers "BCBS001" = some { name := "Blue Cross Blue Shield"
                                  active := true
                                  verificationEndpoint := "mock" } ∧
    mockPayers "AETNA001" = some { name := "Aetna", active := true
                                   verificationEndpoint := "mock" } ∧
    mockPayers "UHC001" = some { name := "United Healthcare"
                                 active := true
                                 verificationEndpoint := "mock" } := by
  refine ⟨?_, ?_, ?_, rfl, rfl, rfl, rfl, rfl⟩ <;>
  simp [verifyEligibility, hk, hp]

/-- C7, witness at payer key `BCBS001` (display name
`Blue Cross Blue Shield`), with both values of the random boolean. -/
theorem c7_witness :
    (payerIdOf (extractCoverageInfo sampleBundle |>.getD noPayorCoverage)
       = some "BCBS001") ∧
    (mockPayers "BCBS001" = some { name := "Blue Cross Blue Shield"
                                   active := true
                                   verificationEndpoint := "mock" }) ∧
    (∀ rand : Bool,
      (verifyEligibility rand "2024-06-01T00:00:00Z"
          (extractPatientInfo samplePatient)
          (extractCoverageInfo sampleBundle |>.getD
            noPayorCoverage)).status = "success" ∧
      (verifyEligibility rand "2024-06-01T00:00:00Z"
          (extractPatientInfo samplePatient)
          (extractCoverageInfo sampleBundle |>.getD
            noPayorCoverage)).payerName
        = some "Blue Cross Blue Shield" ∧
      (verifyEligibility rand "2024-06-01T00:00:00Z"
          (extractPatientInfo samplePatient)
          (extractCoverageInfo sampleBundle |>.getD
            noPayorCoverage)).benefits = some mockBenefits) :=
  ⟨by decide, by decide,
   fun rand =>
     let h := c7_known_payer rand "2024-06-01T00:00:00Z"
       (extractPatientInfo samplePatient)
       (extractCoverageInfo sampleBundle |>.getD noPayorCoverage)
       "BCBS001"
       { name := "Blue Cross Blue Shield", active := true
         verificationEndpoint := "mock" }
       (by decide) (by decide)
     ⟨h.1, h.2.1, h.2.2.1⟩⟩

/-- C8. For every coverage search bundle, `extractCoverageInfo` returns
null iff the bundle's entry list is absent or empty; otherwise it returns
a record built from entry[0]'s resource only — independent of any further
entries — copying the id, status, subscriberId, payor and period fields
verbatim. -/
theorem c8_extract_coverage (bundle : Bundle) :
    (extractCoverageInfo bundle = none ↔
      (bundle.entry = none ∨ bundle.entry = some [])) ∧
    (∀ e rest, bundle.entry = some (e :: rest) →
      extractCoverageInfo bundle =
        some { id := e.resource.id, status := e.resource.status
               subscriberId := e.resource.subscriberId
               payor := e.resource.payor
               period := e.resource.period }) := by
  obtain ⟨entry⟩ := bundle
  constructor
  · cases entry with
    | none => simp [extractCoverageInfo]
    | some l =>
        cases l with
        | nil => simp [extractCoverageInfo]
        | cons e rest => simp [extractCoverageInfo]
  · intro e rest hE
    simp only [Bundle.mk.injEq] at hE ⊢
    subst hE
    rfl

/-- C8, witness: a two-entry bundle whose second entry is ignored. -/
theorem c8_witness :
    ({ entry := some [⟨sampleCoverage⟩, ⟨noPayorCoverageResource⟩] }
        : Bundle).entry
      = some [⟨sampleCoverage⟩, ⟨noPayorCoverageResource⟩] ∧
    extractCoverageInfo
        { entry := some [⟨sampleCoverage⟩, ⟨noPayorCoverageResource⟩] } =
      some { id := sampleCoverage.id, status := sampleCoverage.status
             subscriberId := sampleCoverage.subscriberId
             payor := sampleCoverage.payor
             period := sampleCoverage.period } :=
  ⟨rfl,
   (c8_extract_coverage
       { entry := some [⟨sampleCoverage⟩, ⟨noPayorCoverageResource⟩] }).2
     ⟨sampleCoverage⟩ [⟨noPayorCoverageResource⟩] rfl⟩

/-- C9. `extractPatientInfo` is a total Lean function, so it never fails
on any raw patient resource, including ones missing every optional field;
firstName and lastName default to the empty string when the name (or its
given/family parts) is absent, phone is the value of the first telecom
entry whose system equals `phone` (absent when there is none or no
telecom list), and `address[0]` is passed through verbatim. -/
theorem c9_extract_patient_total (p : Patient) :
    (extractPatientInfo p).address = p.address.bind List.head? ∧
    (extractPatientInfo p).phone =
      (firstPhone (p.telecom.getD [])).bind (fun t => t.value) ∧
    ((p.name = none ∨ p.name = some []) →
      (extractPatientInfo p).firstName = "" ∧
      (extractPatientInfo p).lastName = "") ∧
    (∀ n ns, p.name = some (n :: ns) →
      (n.given = none ∨ n.given = some []) →
      (extractPatientInfo p).firstName = "") ∧
    (∀ n ns, p.name = some (n :: ns) → n.family = none →
      (extractPatientInfo p).lastName = "") ∧
    (p.telecom = none → (extractPatientInfo p).phone = none) ∧
    (p.address = none → (extractPatientInfo p).address = none) := by
  refine ⟨rfl, ?_, ?_, ?_, ?_, ?_, ?_⟩
  · cases ht : p.telecom with
    | none => simp [extractPatientInfo, ht, firstPhone]
    | some l => simp [extractPatientInfo, ht, find_phone_eq_firstPhone]
  · rintro (hn | hn) <;> simp [extractPatientInfo, hn]
  · rintro n ns hn (hg | hg) <;> simp [extractPatientInfo, hn, hg]
  · intro n ns hn hf
    simp [extractPatientInfo, hn, hf]
  · intro ht
    simp [extractPatientInfo, ht]
  · intro ha
    simp [extractPatientInfo, ha]

/-- C9, witness at the patient resource with every optional field
absent. -/
theorem c9_witness :
    (barePatient.name = none ∨ barePatient.name = some []) ∧
    (barePatient.telecom = none) ∧
    (barePatient.address = none) ∧
    (extractPatientInfo barePatient).firstName = "" ∧
    (extractPatientInfo barePatient).lastName = "" ∧
    (extractPatientInfo barePatient).phone = none ∧
    (extractPatientInfo barePatient).address = none :=
  ⟨Or.inl rfl, rfl, rfl,
   ((c9_extract_patient_total barePatient).2.2.1 (Or.inl rfl)).1,
   ((c9_extract_patient_total barePatient).2.2.1 (Or.inl rfl)).2,
   (c9_extract_patient_total barePatient).2.2.2.2.2.1 rfl,
   (c9_extract_patient_total barePatient).2.2.2.2.2.2 rfl⟩

/-- C10. For every batch item whose patient fetch succeeds but whose
normalized coverage is null, the batch entry is the success shape with a
null coverage field and verification exactly `{status: no_coverage}` with
no message — whereas single verification includes the message
`No insurance coverage found for patient` and omits the coverage key. -/
theorem c10_batch_vs_single_no_coverage (pid now : String) (p : Patient)
    (cu : FetchResult Bundle) (rand : Bool)
    (hpid : pid.isEmpty = false)
    (hcov : extractCoverageInfo (getCoverage cu) = none) :
    verifyBatchItem pid
        { patientFetch := .ok p, coverageFetch := cu, rand := rand } now =
      (.ok pid (extractPatientInfo p) none (.simple "no_coverage" none),
       0) ∧
    (verifyInsuranceRoute (some pid) (.ok p) cu rand now).1.body.coverage
      = none ∧
    (verifyInsuranceRoute (some pid) (.ok p) cu rand
        now).1.body.verification =
      some (.simple "no_coverage"
        (some "No insurance coverage found for patient")) := by
  refine ⟨?_, ?_, ?_⟩
  · simp [verifyBatchItem, getPatient, hcov]
  · simp [verifyInsuranceRoute, falsyId, hpid, getPatient, hcov]
  · simp [verifyInsuranceRoute, falsyId, hpid, getPatient, hcov]

/-- C10, witness: patient fetch succeeds, coverage bundle empty, batch
entry versus single response compared at the same inputs. -/
theorem c10_witness :
    ("p1".isEmpty = false) ∧
    (extractCoverageInfo (getCoverage (.ok emptyBundle)) = none) ∧
    (verifyBatchItem "p1"
        { patientFetch := .ok samplePatient
          coverageFetch := .ok emptyBundle, rand := true }
        "2024-06-01T00:00:00Z" =
      (.ok "p1" (extractPatientInfo samplePatient) none
         (.simple "no_coverage" none), 0) ∧
     (verifyInsuranceRoute (some "p1") (.ok samplePatient)
        (.ok emptyBundle) true
        "2024-06-01T00:00:00Z").1.body.coverage = none ∧
     (verifyInsuranceRoute (some "p1") (.ok samplePatient)
        (.ok emptyBundle) true
        "2024-06-01T00:00:00Z").1.body.verification =
       some (.simple "no_coverage"
         (some "No insurance coverage found for patient"))) :=
  ⟨by decide, by decide,
   c10_batch_vs_single_no_coverage "p1" "2024-06-01T00:00:00Z"
     samplePatient (.ok emptyBundle) true (by decide) (by decide)⟩

end EHR
